import Mathlib

/-!
Verification development for the fraud-detection-system repository.

The two source files are shallowly embedded:
- `backend/main.py` (class `RuleBasedFraudDetection`): the risk scorer,
  anomaly detector and the stateful `predict` operation.
- `backend/data_generator.py` (class `TransactionDataGenerator`): the
  synthetic transaction generator.

Python floats are modelled as exact rationals (ℚ).  Python's `round`
(banker's rounding, round-half-to-even) is modelled exactly by
`roundHalfEven`.  Randomness is modelled by explicit oracle arguments:
each call of `random.uniform`, `random.choice`, `random.choices`,
`random.random`, `np.random.poisson` and `uuid.uuid4` in the source
corresponds to one explicit draw argument; a categorical choice from a
list is modelled by an arbitrary natural index reduced modulo the list
length (`pick`), so that the drawn element is always a member of the
list, as `random.choice` guarantees.
-/

/-! ### Rounding: Python `round(x, n)` is round-half-to-even -/

/-- Round a rational to an integer, ties to even (Python's `round`). -/
def roundHalfEven (q : ℚ) : ℤ :=
  if q - ⌊q⌋ < 1/2 then ⌊q⌋
  else if 1/2 < q - ⌊q⌋ then ⌊q⌋ + 1
  else if 2 ∣ ⌊q⌋ then ⌊q⌋ else ⌊q⌋ + 1

/-- Python `round(q, 2)`. -/
def round2 (q : ℚ) : ℚ := (roundHalfEven (q * 100) : ℚ) / 100

/-- Python `round(q, 3)`. -/
def round3 (q : ℚ) : ℚ := (roundHalfEven (q * 1000) : ℚ) / 1000

/-- Python `str.lower()` (per-character, as `String.toLower` computes it;
kept as an explicit map over the character list so it evaluates). -/
def strLower (s : String) : String := ⟨s.data.map Char.toLower⟩

/-- Python `str.upper()`. -/
def strUpper (s : String) : String := ⟨s.data.map Char.toUpper⟩

/-! ### Scorer data model (`main.py`) -/

/-- A transaction record as read by the scorer.  The scorer accesses every
field with `transaction.get(key, default)` (defaults: amount `0`, strings
`""`), so a record with an absent field is the record carrying that
default value. -/
structure Transaction where
  amount : ℚ := 0
  merchant : String := ""
  location : String := ""
  time_of_day : String := ""
  card_type : String := ""

/-- Output record of `predict`. -/
structure PredictionRecord where
  prediction : ℕ
  is_anomaly : ℕ
  confidence : ℚ
  risk_score : ℚ

/-- The mutable counters of `RuleBasedFraudDetection`. -/
structure ScorerState where
  total_transactions : ℕ
  fraud_detected : ℕ
  normal_transactions : ℕ

/-- Counters at `__init__`. -/
def initState : ScorerState := ⟨0, 0, 0⟩

/-- `self.merchant_risk_scores.get(merchant, 0.2)`. -/
def merchant_risk_scores (merchant : String) : ℚ :=
  if merchant = "online" then 0.4
  else if merchant = "atm" then 0.3
  else if merchant = "gas" then 0.1
  else if merchant = "grocery" then 0.05
  else if merchant = "restaurant" then 0.15
  else 0.2

/-- `self.location_risk_scores.get(location, 0.2)`. -/
def location_risk_scores (loc : String) : ℚ :=
  if loc = "CA" then 0.3
  else if loc = "NY" then 0.25
  else if loc = "FL" then 0.35
  else if loc = "TX" then 0.2
  else if loc = "IL" then 0.15
  else 0.2

/-- `self.time_risk_scores.get(time_of_day, 0.2)`. -/
def time_risk_scores (tod : String) : ℚ :=
  if tod = "night" then 0.4
  else if tod = "evening" then 0.2
  else if tod = "morning" then 0.1
  else if tod = "afternoon" then 0.15
  else 0.2

/-- `self.card_risk_scores.get(card_type, 0.2)`. -/
def card_risk_scores (card : String) : ℚ :=
  if card = "prepaid" then 0.4
  else if card = "credit" then 0.2
  else if card = "debit" then 0.1
  else 0.2

/-- The amount-tier contribution of `calculate_risk_score`
(thresholds `very_high_amount_threshold = 5000`,
`high_amount_threshold = 2000`; only the first matching branch fires). -/
def amountRisk (amount : ℚ) : ℚ :=
  if amount > 5000 then 0.5
  else if amount > 2000 then 0.3
  else if amount < 1 then 0.2
  else 0

/-- `RuleBasedFraudDetection.calculate_risk_score`: the five feature
contributions summed, capped at `1.0`. -/
def calculate_risk_score (t : Transaction) : ℚ :=
  min (amountRisk t.amount
      + merchant_risk_scores (strLower t.merchant)
      + location_risk_scores (strUpper t.location)
      + time_risk_scores (strLower t.time_of_day)
      + card_risk_scores (strLower t.card_type)) 1

/-- Exact-multiple-of-100 test: Python `amount % 100 == 0` on an exact
value holds iff the value is an integer multiple of 100. -/
def isMultiple100 (q : ℚ) : Bool := q.den == 1 && q.num % 100 == 0

/-- `RuleBasedFraudDetection.detect_anomalies`: the four anomaly rules;
the source collects matched reasons into a list and returns its
non-emptiness, i.e. the disjunction of the four conditions. -/
def detect_anomalies (t : Transaction) : Bool :=
  ((strLower t.merchant) == "online" && (strLower t.time_of_day) == "night"
      && decide (t.amount > 1000))
  || (isMultiple100 t.amount && decide (t.amount > 500))
  || ((strLower t.merchant) == "atm" && decide (t.amount > 800))
  || (((strLower t.merchant) == "grocery" || (strLower t.merchant) == "gas")
      && decide (t.amount > 300))

/-- `RuleBasedFraudDetection.predict`: returns the prediction record and
the updated counters (`fraud_threshold = 0.6`;
`is_fraud = risk_score > 0.6 or is_anomaly`). -/
def predict (t : Transaction) (s : ScorerState) :
    PredictionRecord × ScorerState :=
  ({ prediction :=
       if calculate_risk_score t > 0.6 ∨ detect_anomalies t = true then 1 else 0,
     is_anomaly := if detect_anomalies t = true then 1 else 0,
     confidence := round3
       (if calculate_risk_score t > 0.6 ∨ detect_anomalies t = true
        then min 0.9 (0.5 + calculate_risk_score t)
        else max 0.7 (1 - calculate_risk_score t)),
     risk_score := round3 (calculate_risk_score t) },
   { total_transactions := s.total_transactions + 1,
     fraud_detected :=
       if calculate_risk_score t > 0.6 ∨ detect_anomalies t = true
       then s.fraud_detected + 1 else s.fraud_detected,
     normal_transactions :=
       if calculate_risk_score t > 0.6 ∨ detect_anomalies t = true
       then s.normal_transactions else s.normal_transactions + 1 })

/-- A sequence of `predict` calls threaded through the scorer state. -/
def runPredicts (ts : List Transaction) (s : ScorerState) : ScorerState :=
  ts.foldl (fun st t => (predict t st).2) s

/-! ### Generator data model (`data_generator.py`) -/

/-- A transaction as produced by `TransactionDataGenerator`.  `timestamp`
is in minutes (abstract origin); `timestamp` and `session_id` are only
set by `generate_user_session`. -/
structure GenTransaction where
  amount : ℚ
  merchant_type : String
  location : String
  time_of_day : String
  card_type : String
  user_profile : String
  timestamp : ℚ := 0
  session_id : String := ""

/-- A user profile row of `self.user_profiles`. -/
structure Profile where
  avg_daily_transactions : ℕ
  preferred_merchants : List String
  avg_amount : ℚ
  fraud_probability : ℚ

/-- `random.choice`/`random.choices` on a list: an arbitrary index reduced
modulo the length, so the result is always an element for a nonempty
list. -/
def pick (l : List String) (i : ℕ) : String := l.getD (i % l.length) ""

/-- `self.merchant_types`. -/
def merchant_types : List String :=
  ["grocery", "gas", "restaurant", "online", "atm", "pharmacy",
   "entertainment", "travel", "unknown"]

/-- `self.time_periods`. -/
def time_periods : List String := ["morning", "afternoon", "evening", "night"]

/-- `self.card_types`. -/
def card_types : List String := ["debit", "credit", "prepaid"]

/-- `self.locations` (22 entries; the last two are the sentinels). -/
def locations : List String :=
  ["New York, NY", "Los Angeles, CA", "Chicago, IL", "Houston, TX",
   "Phoenix, AZ", "Philadelphia, PA", "San Antonio, TX", "San Diego, CA",
   "Dallas, TX", "San Jose, CA", "Austin, TX", "Jacksonville, FL",
   "Fort Worth, TX", "Columbus, OH", "Charlotte, NC", "San Francisco, CA",
   "Indianapolis, IN", "Seattle, WA", "Denver, CO", "Boston, MA",
   "Unknown Location", "Foreign Country"]

/-- `self.merchant_amount_ranges`; the final `(0, 0)` branch is
unreachable, since every merchant type the generator uses is a key of the
source dictionary (indexing which would raise `KeyError` otherwise). -/
def merchant_amount_ranges (m : String) : ℚ × ℚ :=
  if m = "grocery" then (5, 200)
  else if m = "gas" then (20, 120)
  else if m = "restaurant" then (8, 150)
  else if m = "online" then (10, 2000)
  else if m = "atm" then (20, 500)
  else if m = "pharmacy" then (5, 100)
  else if m = "entertainment" then (15, 300)
  else if m = "travel" then (50, 5000)
  else if m = "unknown" then (1, 10000)
  else (0, 0)

/-- The keys of `self.user_profiles`, in source order (also the
population `random.choices` samples from when no profile is given). -/
def profile_names : List String :=
  ["normal_user", "heavy_user", "business_user", "suspicious_user"]

/-- `self.user_profiles[name]`, as a partial lookup: an unknown key
raises `KeyError` in the source, modelled by `none`. -/
def user_profiles (name : String) : Option Profile :=
  if name = "normal_user" then
    some ⟨3, ["grocery", "gas", "restaurant"], 75, 0.001⟩
  else if name = "heavy_user" then
    some ⟨8, ["online", "restaurant", "entertainment"], 120, 0.005⟩
  else if name = "business_user" then
    some ⟨12, ["travel", "online", "restaurant"], 300, 0.008⟩
  else if name = "suspicious_user" then
    some ⟨2, ["unknown", "online", "atm"], 500, 0.15⟩
  else none

/-- `TransactionDataGenerator._hour_to_period`. -/
def hour_to_period (hour : ℕ) : String :=
  if 6 ≤ hour ∧ hour < 12 then "morning"
  else if 12 ≤ hour ∧ hour < 18 then "afternoon"
  else if 18 ≤ hour ∧ hour < 22 then "evening"
  else "night"

/-- The random draws consumed by one `_generate_normal_transaction` call:
`merchantIdx` for `random.choice(profile['preferred_merchants'])`,
`baseAmount` for `random.uniform(min_amount, max_amount)`,
`jitter` for `random.uniform(0.5, 1.5)`,
`hourDraw` for `_generate_realistic_hour()` (an element of `range(24)`),
`locationIdx` and `cardIdx` for the two weighted `random.choices`. -/
structure NormalDraws where
  merchantIdx : ℕ
  baseAmount : ℚ
  jitter : ℚ
  hourDraw : ℕ
  locationIdx : ℕ
  cardIdx : ℕ

/-- `TransactionDataGenerator._generate_normal_transaction`. -/
def generate_normal_transaction (profile : Profile) (d : NormalDraws) :
    GenTransaction :=
  { amount := round2 (max (d.baseAmount * d.jitter * (profile.avg_amount / 75)) 0.01)
    merchant_type := pick profile.preferred_merchants d.merchantIdx
    location := pick locations d.locationIdx
    time_of_day := hour_to_period (d.hourDraw % 24)
    card_type := pick card_types d.cardIdx
    user_profile := "normal" }

/-- `fraud_patterns` of `_generate_fraud_transaction`. -/
def fraud_patterns : List String :=
  ["high_amount_unknown_merchant", "multiple_small_amounts",
   "foreign_location", "unusual_time", "prepaid_card_pattern"]

/-- The random draws consumed by one `_generate_fraud_transaction` call:
`patternIdx` for `random.choice(fraud_patterns)`, `amountDraw` for the
chosen branch's `random.uniform`, and `choice1`…`choice3` for the
branch's categorical `random.choice` calls, in source order. -/
structure FraudDraws where
  patternIdx : ℕ
  amountDraw : ℚ
  choice1 : ℕ
  choice2 : ℕ
  choice3 : ℕ

/-- `TransactionDataGenerator._generate_fraud_transaction`.  The final
branch is the source's "default fraud pattern" fallback, dead code since
`random.choice(fraud_patterns)` always yields one of the five names. -/
def generate_fraud_transaction (d : FraudDraws) : GenTransaction :=
  if pick fraud_patterns d.patternIdx = "high_amount_unknown_merchant" then
    { amount := round2 d.amountDraw
      merchant_type := "unknown"
      location := pick ["Unknown Location", "Foreign Country"] d.choice1
      time_of_day := "night"
      card_type := pick ["credit", "prepaid"] d.choice2
      user_profile := "fraudulent" }
  else if pick fraud_patterns d.patternIdx = "multiple_small_amounts" then
    { amount := round2 d.amountDraw
      merchant_type := pick ["online", "unknown"] d.choice1
      location := pick (locations.drop 20) d.choice2
      time_of_day := pick ["night", "evening"] d.choice3
      card_type := "prepaid"
      user_profile := "fraudulent" }
  else if pick fraud_patterns d.patternIdx = "foreign_location" then
    { amount := round2 d.amountDraw
      merchant_type := pick ["online", "travel", "unknown"] d.choice1
      location := "Foreign Country"
      time_of_day := pick ["night", "morning"] d.choice2
      card_type := pick ["credit", "prepaid"] d.choice3
      user_profile := "fraudulent" }
  else if pick fraud_patterns d.patternIdx = "unusual_time" then
    { amount := round2 d.amountDraw
      merchant_type := pick ["atm", "online", "unknown"] d.choice1
      location := pick ("Unknown Location" :: locations.take 10) d.choice2
      time_of_day := "night"
      card_type := pick card_types d.choice3
      user_profile := "fraudulent" }
  else if pick fraud_patterns d.patternIdx = "prepaid_card_pattern" then
    { amount := round2 d.amountDraw
      merchant_type := pick ["online", "atm", "unknown"] d.choice1
      location := pick locations d.choice2
      time_of_day := pick time_periods d.choice3
      card_type := "prepaid"
      user_profile := "fraudulent" }
  else
    { amount := round2 d.amountDraw
      merchant_type := "unknown"
      location := "Unknown Location"
      time_of_day := "night"
      card_type := "prepaid"
      user_profile := "fraudulent" }

/-- The `random.uniform` bounds of each fraud archetype's amount (last
branch: the dead default pattern). -/
def archetypeRange (pattern : String) : ℚ × ℚ :=
  if pattern = "high_amount_unknown_merchant" then (1000, 15000)
  else if pattern = "multiple_small_amounts" then (0.01, 50)
  else if pattern = "foreign_location" then (100, 3000)
  else if pattern = "unusual_time" then (200, 5000)
  else if pattern = "prepaid_card_pattern" then (50, 1000)
  else (500, 10000)

/-- The body of `generate_transaction` after the profile lookup has
succeeded: `random.random() < profile['fraud_probability']` routes to the
fraud generator, else to the normal generator. -/
def generate_transaction_core (profile : Profile) (fraudDraw : ℚ)
    (nd : NormalDraws) (fd : FraudDraws) : GenTransaction :=
  if fraudDraw < profile.fraud_probability then generate_fraud_transaction fd
  else generate_normal_transaction profile nd

/-- `TransactionDataGenerator.generate_transaction`.  `userProfile = none`
models the omitted argument (a profile name is then drawn from
`profile_names`, always a valid key); an explicit unknown name makes the
table lookup fail (`KeyError`), modelled by `none`. -/
def generate_transaction (userProfile : Option String) (profileIdx : ℕ)
    (fraudDraw : ℚ) (nd : NormalDraws) (fd : FraudDraws) :
    Option GenTransaction :=
  match user_profiles (match userProfile with
    | none => pick profile_names profileIdx
    | some n => n) with
  | none => none
  | some profile => some (generate_transaction_core profile fraudDraw nd fd)

/-- The loop of `generate_user_session`: argument `n` transactions remain,
`i` is the loop index (indexing the per-iteration draw streams), and
`baseTime` is the running `base_time` in minutes.  Each iteration draws a
gap (`random.randint(5, 120)` minutes), generates a transaction for the
profile name, then sets its `timestamp` and a fresh `session_id` of
`str(uuid.uuid4())[:8]`.  The `none` case of the inner call is
unreachable for a valid profile name. -/
def sessionAux (pn : String) (uuids : ℕ → String) (gaps : ℕ → ℚ)
    (fraudDraws : ℕ → ℚ) (nds : ℕ → NormalDraws) (fds : ℕ → FraudDraws) :
    ℕ → ℕ → ℚ → List GenTransaction
  | 0, _, _ => []
  | n + 1, i, baseTime =>
    match generate_transaction (some pn) 0 (fraudDraws i) (nds i) (fds i) with
    | none => []
    | some tx =>
      { tx with timestamp := baseTime + gaps i,
                session_id := (uuids i).take 8 } ::
        sessionAux pn uuids gaps fraudDraws nds fds n (i + 1) (baseTime + gaps i)

/-- `TransactionDataGenerator.generate_user_session`.  The profile lookup
happens first (unknown name: `KeyError`, modelled by `none`); the session
length is the given one, or `max(1, poisson-draw)` when omitted. -/
def generate_user_session (pn : String) (sessionLength : Option ℕ)
    (poissonDraw : ℕ) (uuids : ℕ → String) (gaps : ℕ → ℚ)
    (fraudDraws : ℕ → ℚ) (nds : ℕ → NormalDraws) (fds : ℕ → FraudDraws)
    (baseTime : ℚ) : Option (List GenTransaction) :=
  match user_profiles pn with
  | none => none
  | some _ =>
    some (sessionAux pn uuids gaps fraudDraws nds fds
      (match sessionLength with
        | some l => l
        | none => max 1 poissonDraw) 0 baseTime)

/-- The per-transaction session tokens: transaction `i` of a session gets
the first 8 characters of the `i`-th uuid draw. -/
def freshIds (uuids : ℕ → String) : ℕ → ℕ → List String
  | _, 0 => []
  | i, n + 1 => (uuids i).take 8 :: freshIds uuids (i + 1) n

/-! ### Concrete example inputs (used by witnesses and counterexamples) -/

/-- The `normal_user` profile row. -/
def normalProfile : Profile := ⟨3, ["grocery", "gas", "restaurant"], 75, 0.001⟩

/-- Example normal-transaction draws. -/
def exNd : NormalDraws := ⟨0, 10, 1, 9, 0, 0⟩

/-- Example fraud-transaction draws (archetype 0, amount draw 2000). -/
def exFd : FraudDraws := ⟨0, 2000, 0, 0, 0⟩

/-- Example uuid stream: distinct tokens for draws 0 and 1. -/
def exUuids (i : ℕ) : String :=
  if i = 0 then "aaaaaaaa-0000" else "bbbbbbbb-1111"

/-- Example gap stream (a constant 10-minute gap). -/
def exGaps (_ : ℕ) : ℚ := 10

/-- Example `random.random()` stream: `1/2` never falls below
`normal_user`'s fraud probability `0.001`, so the normal path runs. -/
def exFraudDraws (_ : ℕ) : ℚ := 1/2

/-- Example per-iteration normal draws. -/
def exNds (_ : ℕ) : NormalDraws := exNd

/-- Example per-iteration fraud draws. -/
def exFds (_ : ℕ) : FraudDraws := exFd

/-! ### Rounding lemmas -/

lemma floor_le_roundHalfEven (q : ℚ) : ⌊q⌋ ≤ roundHalfEven q := by
  unfold roundHalfEven
  split_ifs <;> omega

lemma roundHalfEven_le_ceil (q : ℚ) : roundHalfEven q ≤ ⌈q⌉ := by
  unfold roundHalfEven
  split_ifs with h1 h2 h3
  · exact Int.floor_le_ceil q
  · have hlt : (⌊q⌋ : ℚ) < q := by linarith
    have := Int.lt_ceil.mpr hlt
    omega
  · exact Int.floor_le_ceil q
  · have hlt : (⌊q⌋ : ℚ) < q := by linarith
    have := Int.lt_ceil.mpr hlt
    omega

lemma round2_lb (q : ℚ) (m : ℤ) (h : (m : ℚ) / 100 ≤ q) :
    (m : ℚ) / 100 ≤ round2 q := by
  have h100 : (m : ℚ) ≤ q * 100 := by linarith
  have hm : m ≤ ⌊q * 100⌋ := Int.le_floor.mpr (by exact_mod_cast h100)
  have hr : m ≤ roundHalfEven (q * 100) :=
    le_trans hm (floor_le_roundHalfEven _)
  have hq : (m : ℚ) ≤ (roundHalfEven (q * 100) : ℚ) := by exact_mod_cast hr
  unfold round2
  linarith

lemma round2_ub (q : ℚ) (m : ℤ) (h : q ≤ (m : ℚ) / 100) :
    round2 q ≤ (m : ℚ) / 100 := by
  have h100 : q * 100 ≤ (m : ℚ) := by linarith
  have hm : ⌈q * 100⌉ ≤ m := Int.ceil_le.mpr (by exact_mod_cast h100)
  have hr : roundHalfEven (q * 100) ≤ m :=
    le_trans (roundHalfEven_le_ceil _) hm
  have hq : (roundHalfEven (q * 100) : ℚ) ≤ (m : ℚ) := by exact_mod_cast hr
  unfold round2
  linarith

lemma round2_cents (q : ℚ) : ∃ m : ℤ, round2 q = (m : ℚ) / 100 :=
  ⟨roundHalfEven (q * 100), rfl⟩

/-! ### Scorer table bounds -/

lemma merchant_risk_lb (s : String) : (0.05 : ℚ) ≤ merchant_risk_scores s := by
  unfold merchant_risk_scores
  split_ifs <;> norm_num

lemma location_risk_lb (s : String) : (0.15 : ℚ) ≤ location_risk_scores s := by
  unfold location_risk_scores
  split_ifs <;> norm_num

lemma time_risk_lb (s : String) : (0.1 : ℚ) ≤ time_risk_scores s := by
  unfold time_risk_scores
  split_ifs <;> norm_num

lemma card_risk_lb (s : String) : (0.1 : ℚ) ≤ card_risk_scores s := by
  unfold card_risk_scores
  split_ifs <;> norm_num

lemma amountRisk_nonneg (a : ℚ) : 0 ≤ amountRisk a := by
  unfold amountRisk
  split_ifs <;> norm_num

/-- The key lower bound: every transaction scores at least `0.4`. -/
lemma risk_score_lb (t : Transaction) : (0.4 : ℚ) ≤ calculate_risk_score t := by
  unfold calculate_risk_score
  have h1 := amountRisk_nonneg t.amount
  have h2 := merchant_risk_lb (strLower t.merchant)
  have h3 := location_risk_lb (strUpper t.location)
  have h4 := time_risk_lb (strLower t.time_of_day)
  have h5 := card_risk_lb (strLower t.card_type)
  refine le_min (by linarith) (by norm_num)


/-- C1: for every transaction record — including unknown
merchant/location/time/card strings taking the 0.2 default contribution
and any amount — `calculate_risk_score` lies in the closed interval
[0,1] and equals the sum of the amount-tier, merchant, location, time
and card contributions capped at 1.0. -/
theorem C1_risk_score_in_unit_interval (t : Transaction) :
    0 ≤ calculate_risk_score t ∧ calculate_risk_score t ≤ 1 ∧
      calculate_risk_score t
        = min (amountRisk t.amount
            + merchant_risk_scores (strLower t.merchant)
            + location_risk_scores (strUpper t.location)
            + time_risk_scores (strLower t.time_of_day)
            + card_risk_scores (strLower t.card_type)) 1 := by
  have h1 := amountRisk_nonneg t.amount
  have h2 := merchant_risk_lb (strLower t.merchant)
  have h3 := location_risk_lb (strUpper t.location)
  have h4 := time_risk_lb (strLower t.time_of_day)
  have h5 := card_risk_lb (strLower t.card_type)
  unfold calculate_risk_score
  exact ⟨le_min (by linarith) (by norm_num), min_le_right _ _, rfl⟩

/-- C9: `calculate_risk_score` never falls below 0.4: the merchant,
location, time and card lookups each contribute at least their table
minimum (0.05, 0.15, 0.1, 0.1) or the 0.2 default, and the completely
empty record scores exactly 1.0. -/
theorem C9_risk_score_lower_bound :
    (∀ t : Transaction, (0.4 : ℚ) ≤ calculate_risk_score t) ∧
      calculate_risk_score {} = 1 := by
  refine ⟨fun t => risk_score_lb t, ?_⟩
  have h1 : strLower "" = "" := by decide
  have h2 : strUpper "" = "" := by decide
  simp [calculate_risk_score, h1, h2, merchant_risk_scores,
    location_risk_scores, time_risk_scores, card_risk_scores]
  norm_num [amountRisk]

/-- `isMultiple100` agrees with the mathematical notion of an exact
integer multiple of 100 (which is what Python's `amount % 100 == 0`
tests on an exact value). -/
lemma isMultiple100_iff (q : ℚ) :
    isMultiple100 q = true ↔ ∃ k : ℤ, q = 100 * k := by
  unfold isMultiple100
  rw [Bool.and_eq_true, beq_iff_eq, beq_iff_eq]
  constructor
  · rintro ⟨hden, hmod⟩
    obtain ⟨k, hk⟩ := Int.dvd_of_emod_eq_zero hmod
    refine ⟨k, ?_⟩
    have hq : (q.num : ℚ) = q := (Rat.den_eq_one_iff q).mp hden
    rw [← hq, hk]
    push_cast
    ring
  · rintro ⟨k, hk⟩
    have hq : q = ((100 * k : ℤ) : ℚ) := by rw [hk]; push_cast; ring
    constructor
    · rw [hq, Rat.den_intCast]
    · rw [hq, Rat.num_intCast]
      exact Int.emod_emod_of_dvd _ (dvd_refl 100) ▸ Int.mul_emod_right 100 k

/-- C3: `detect_anomalies` holds iff at least one of the four anomaly
rules fires: (a) online at night above 1000, (b) an exact multiple of
100 above 500, (c) atm above 800, (d) grocery or gas above 300. -/
theorem C3_detect_anomalies_iff (t : Transaction) :
    detect_anomalies t = true ↔
      (strLower t.merchant = "online" ∧ strLower t.time_of_day = "night"
          ∧ t.amount > 1000)
      ∨ ((∃ k : ℤ, t.amount = 100 * k) ∧ t.amount > 500)
      ∨ (strLower t.merchant = "atm" ∧ t.amount > 800)
      ∨ ((strLower t.merchant = "grocery" ∨ strLower t.merchant = "gas")
          ∧ t.amount > 300) := by
  unfold detect_anomalies
  simp only [Bool.or_eq_true, Bool.and_eq_true, beq_iff_eq,
    decide_eq_true_eq, isMultiple100_iff]
  tauto

/-- C4: `predict` returns prediction 1 exactly when the risk score
exceeds 0.6 or an anomaly fires; the confidence is
`min(0.9, 0.5 + risk)` in the fraud case and `max(0.7, 1 - risk)`
otherwise; both risk score and confidence are rounded to 3 decimals in
the returned record. -/
theorem C4_predict_outputs (t : Transaction) (s : ScorerState) :
    ((predict t s).1.prediction = 1 ↔
      (calculate_risk_score t > 0.6 ∨ detect_anomalies t = true))
    ∧ (predict t s).1.confidence = round3
        (if calculate_risk_score t > 0.6 ∨ detect_anomalies t = true
         then min 0.9 (0.5 + calculate_risk_score t)
         else max 0.7 (1 - calculate_risk_score t))
    ∧ (predict t s).1.risk_score = round3 (calculate_risk_score t) := by
  by_cases h : calculate_risk_score t > 0.6 ∨ detect_anomalies t = true <;>
    simp [predict, h]

lemma predict_step_total (t : Transaction) (s : ScorerState) :
    (predict t s).2.total_transactions = s.total_transactions + 1 := rfl

lemma predict_step_split (t : Transaction) (s : ScorerState) :
    ((predict t s).2.fraud_detected = s.fraud_detected + 1
      ∧ (predict t s).2.normal_transactions = s.normal_transactions)
    ∨ ((predict t s).2.fraud_detected = s.fraud_detected
      ∧ (predict t s).2.normal_transactions = s.normal_transactions + 1) := by
  by_cases h : calculate_risk_score t > 0.6 ∨ detect_anomalies t = true
  · left; constructor <;> simp [predict, h]
  · right; constructor <;> simp [predict, h]

lemma predict_step_sum (t : Transaction) (s : ScorerState) :
    (predict t s).2.fraud_detected + (predict t s).2.normal_transactions
      = s.fraud_detected + s.normal_transactions + 1 := by
  rcases predict_step_split t s with ⟨h1, h2⟩ | ⟨h1, h2⟩ <;> rw [h1, h2] <;> omega

lemma runPredicts_cons (t : Transaction) (ts : List Transaction)
    (s : ScorerState) :
    runPredicts (t :: ts) s = runPredicts ts (predict t s).2 := rfl

lemma runPredicts_total (ts : List Transaction) :
    ∀ s : ScorerState, (runPredicts ts s).total_transactions
      = s.total_transactions + ts.length := by
  induction ts with
  | nil => intro s; rfl
  | cons t ts ih =>
    intro s
    rw [runPredicts_cons, ih, predict_step_total, List.length_cons]
    omega

lemma runPredicts_sum (ts : List Transaction) :
    ∀ s : ScorerState,
      (runPredicts ts s).fraud_detected + (runPredicts ts s).normal_transactions
        = s.fraud_detected + s.normal_transactions + ts.length := by
  induction ts with
  | nil => intro s; simp [runPredicts]
  | cons t ts ih =>
    intro s
    rw [runPredicts_cons, ih, List.length_cons]
    have := predict_step_sum t s
    omega

/-- C2: starting from the initial counters, after the `predict` calls
for any list of N transactions, `total_transactions = N` and
`fraud_detected + normal_transactions = N`; each single `predict` call
increments `total_transactions` by exactly 1 and exactly one of
`fraud_detected` / `normal_transactions` by exactly 1, and never
decreases any counter. -/
theorem C2_predict_counters :
    (∀ ts : List Transaction,
        (runPredicts ts initState).total_transactions = ts.length
      ∧ (runPredicts ts initState).fraud_detected
          + (runPredicts ts initState).normal_transactions = ts.length)
    ∧ (∀ (t : Transaction) (s : ScorerState),
        (predict t s).2.total_transactions = s.total_transactions + 1
      ∧ (((predict t s).2.fraud_detected = s.fraud_detected + 1
            ∧ (predict t s).2.normal_transactions = s.normal_transactions)
         ∨ ((predict t s).2.fraud_detected = s.fraud_detected
            ∧ (predict t s).2.normal_transactions = s.normal_transactions + 1)))
    ∧ (∀ (t : Transaction) (s : ScorerState),
        s.total_transactions ≤ (predict t s).2.total_transactions
      ∧ s.fraud_detected ≤ (predict t s).2.fraud_detected
      ∧ s.normal_transactions ≤ (predict t s).2.normal_transactions) := by
  refine ⟨fun ts => ⟨?_, ?_⟩, fun t s => ⟨predict_step_total t s, predict_step_split t s⟩,
    fun t s => ⟨?_, ?_, ?_⟩⟩
  · rw [runPredicts_total ts initState]; simp [initState]
  · rw [runPredicts_sum ts initState]; simp [initState]
  · rw [predict_step_total]; omega
  · rcases predict_step_split t s with ⟨h1, _⟩ | ⟨h1, _⟩ <;> omega
  · rcases predict_step_split t s with ⟨_, h2⟩ | ⟨_, h2⟩ <;> omega

/-- C10: the confidence reported by `predict` is always at least 0.7:
the non-fraud branch is a `max` with 0.7 (and in fact, since the risk
score is at least 0.4, it always evaluates to exactly 0.7), and the
fraud branch `min(0.9, 0.5 + risk)` evaluates to 0.9. -/
theorem C10_confidence_lower_bound (t : Transaction) (s : ScorerState) :
    (0.7 : ℚ) ≤ (predict t s).1.confidence := by
  have hr := risk_score_lb t
  by_cases h : calculate_risk_score t > 0.6 ∨ detect_anomalies t = true
  · have hmin : min (0.9 : ℚ) (0.5 + calculate_risk_score t) = 0.9 :=
      min_eq_left (by linarith)
    have hc : (predict t s).1.confidence = round3 0.9 := by
      simp [predict, h, hmin]
    rw [hc]
    norm_num [round3, roundHalfEven]
  · have hmax : max (0.7 : ℚ) (1 - calculate_risk_score t) = 0.7 :=
      max_eq_left (by linarith)
    have hc : (predict t s).1.confidence = round3 0.7 := by
      simp [predict, h, hmax]
    rw [hc]
    norm_num [round3, roundHalfEven]

/-! ### Generator lemmas -/

lemma generate_transaction_some (pn : String) (p : Profile)
    (h : user_profiles pn = some p) (profileIdx : ℕ) (fraudDraw : ℚ)
    (nd : NormalDraws) (fd : FraudDraws) :
    generate_transaction (some pn) profileIdx fraudDraw nd fd
      = some (generate_transaction_core p fraudDraw nd fd) := by
  simp [generate_transaction, h]

lemma generate_fraud_amount (d : FraudDraws) :
    (generate_fraud_transaction d).amount = round2 d.amountDraw := by
  unfold generate_fraud_transaction
  split_ifs <;> rfl

lemma generate_fraud_profile_tag (d : FraudDraws) :
    (generate_fraud_transaction d).user_profile = "fraudulent" := by
  unfold generate_fraud_transaction
  split_ifs <;> rfl

lemma generate_normal_amount (p : Profile) (nd : NormalDraws) :
    (generate_normal_transaction p nd).amount
      = round2 (max (nd.baseAmount * nd.jitter * (p.avg_amount / 75)) 0.01) := rfl

lemma archetypeRange_lo (s : String) : (0.01 : ℚ) ≤ (archetypeRange s).1 := by
  unfold archetypeRange
  split_ifs <;> norm_num

lemma archetypeRange_cents (s : String) :
    ∃ mlo mhi : ℤ,
      archetypeRange s = (((mlo : ℚ) / 100, (mhi : ℚ) / 100) : ℚ × ℚ) := by
  unfold archetypeRange
  split_ifs
  exacts [⟨100000, 1500000, by norm_num⟩, ⟨1, 5000, by norm_num⟩,
    ⟨10000, 300000, by norm_num⟩, ⟨20000, 500000, by norm_num⟩,
    ⟨5000, 100000, by norm_num⟩, ⟨50000, 1000000, by norm_num⟩]

lemma user_profiles_none (pn : String) (h : pn ∉ profile_names) :
    user_profiles pn = none := by
  simp [profile_names] at h
  obtain ⟨h1, h2, h3, h4⟩ := h
  simp [user_profiles, h1, h2, h3, h4]

lemma session_update_sid (tx : GenTransaction) (ts : ℚ) (v : String) :
    ({ tx with timestamp := ts, session_id := v } : GenTransaction).session_id
      = v := rfl

lemma sessionAux_map_sid (pn : String) (p : Profile)
    (h : user_profiles pn = some p) (uuids : ℕ → String) (gaps : ℕ → ℚ)
    (fraudDraws : ℕ → ℚ) (nds : ℕ → NormalDraws) (fds : ℕ → FraudDraws) :
    ∀ (n i : ℕ) (t : ℚ),
      (sessionAux pn uuids gaps fraudDraws nds fds n i t).map
          GenTransaction.session_id = freshIds uuids i n := by
  intro n
  induction n with
  | zero => intro i t; rfl
  | succ k ih =>
    intro i t
    simp only [sessionAux, generate_transaction_some pn p h]
    simp [freshIds, ih, session_update_sid]

/-- C5 counterexample: a concrete 2-transaction session for
`normal_user` in which the first transaction carries session_id
"aaaaaaaa" and the second "bbbbbbbb" — the transactions of one session
do NOT all carry the same 8-character token. -/
theorem C5_counterexample_distinct_ids :
    ((generate_user_session "normal_user" (some 2) 0 exUuids exGaps
        exFraudDraws exNds exFds 0).getD []).map GenTransaction.session_id
      = ["aaaaaaaa", "bbbbbbbb"]
    ∧ ("aaaaaaaa" : String) ≠ "bbbbbbbb" := by
  have h : user_profiles "normal_user" = some normalProfile := by
    simp [user_profiles, normalProfile]
  constructor
  · simp [generate_user_session, h,
      sessionAux_map_sid "normal_user" normalProfile h]
    decide
  · decide

/-- C5 amended: `generate_user_session` draws a fresh uuid for every
transaction of the session: the i-th transaction's `session_id` is the
first 8 characters of the i-th uuid draw, so the token is
per-transaction, not per-session. -/
theorem C5_session_ids_per_transaction (pn : String) (p : Profile)
    (h : user_profiles pn = some p) (n : ℕ) (uuids : ℕ → String)
    (gaps : ℕ → ℚ) (fraudDraws : ℕ → ℚ) (nds : ℕ → NormalDraws)
    (fds : ℕ → FraudDraws) (baseTime : ℚ) :
    (generate_user_session pn (some n) 0 uuids gaps fraudDraws nds fds
        baseTime).map (List.map GenTransaction.session_id)
      = some (freshIds uuids 0 n) := by
  simp [generate_user_session, h, sessionAux_map_sid pn p h]

/-- C5 witness: the amended theorem applied to a concrete session. -/
theorem C5_session_ids_witness :
    (generate_user_session "normal_user" (some 2) 0 exUuids exGaps
        exFraudDraws exNds exFds 0).map (List.map GenTransaction.session_id)
      = some (freshIds exUuids 0 2) :=
  C5_session_ids_per_transaction "normal_user" normalProfile
    (by simp [user_profiles, normalProfile]) 2 exUuids exGaps exFraudDraws
    exNds exFds 0

/-- C6: for a profile name that is not one of the four configured
profiles, both `generate_transaction` and `generate_user_session` fail
on the profile table lookup (modelled as `none`, the Python `KeyError`)
rather than silently falling back to a default profile. -/
theorem C6_unknown_profile_fails (pn : String) (h : pn ∉ profile_names) :
    (∀ (profileIdx : ℕ) (fraudDraw : ℚ) (nd : NormalDraws) (fd : FraudDraws),
        generate_transaction (some pn) profileIdx fraudDraw nd fd = none)
    ∧ (∀ (sl : Option ℕ) (poisson : ℕ) (uuids : ℕ → String) (gaps : ℕ → ℚ)
        (fdraws : ℕ → ℚ) (nds : ℕ → NormalDraws) (fds : ℕ → FraudDraws)
        (bt : ℚ),
        generate_user_session pn sl poisson uuids gaps fdraws nds fds bt
          = none) := by
  have hn := user_profiles_none pn h
  exact ⟨fun profileIdx fraudDraw nd fd => by simp [generate_transaction, hn],
    fun sl poisson uuids gaps fdraws nds fds bt => by
      simp [generate_user_session, hn]⟩

/-- C6 witness: the unknown name "admin" makes both operations fail. -/
theorem C6_unknown_profile_witness :
    generate_transaction (some "admin") 0 0 exNd exFd = none
    ∧ generate_user_session "admin" (some 1) 0 exUuids exGaps exFraudDraws
        exNds exFds 0 = none :=
  ⟨(C6_unknown_profile_fails "admin" (by decide)).1 0 0 exNd exFd,
   (C6_unknown_profile_fails "admin" (by decide)).2 (some 1) 0 exUuids exGaps
     exFraudDraws exNds exFds 0⟩

/-- C7: every generated transaction — from the normal path
(unconditionally, thanks to the `max(amount, 0.01)` clamp) and from
every fraud archetype (whose `random.uniform` draw lies within the
archetype's bounds) — has amount at least 0.01 and rounded to 2 decimal
digits. -/
theorem C7_amount_invariant :
    (∀ (p : Profile) (nd : NormalDraws),
        (0.01 : ℚ) ≤ (generate_normal_transaction p nd).amount
      ∧ ∃ m : ℤ, (generate_normal_transaction p nd).amount = (m : ℚ) / 100)
    ∧ (∀ fd : FraudDraws,
        (archetypeRange (pick fraud_patterns fd.patternIdx)).1 ≤ fd.amountDraw →
        fd.amountDraw ≤ (archetypeRange (pick fraud_patterns fd.patternIdx)).2 →
        (0.01 : ℚ) ≤ (generate_fraud_transaction fd).amount
      ∧ ∃ m : ℤ, (generate_fraud_transaction fd).amount = (m : ℚ) / 100) := by
  constructor
  · intro p nd
    rw [generate_normal_amount]
    constructor
    · have hmax : ((1 : ℤ) : ℚ) / 100
          ≤ max (nd.baseAmount * nd.jitter * (p.avg_amount / 75)) 0.01 := by
        have := le_max_right (nd.baseAmount * nd.jitter * (p.avg_amount / 75))
          (0.01 : ℚ)
        push_cast
        linarith [show (0.01 : ℚ) = 1 / 100 by norm_num]
      have := round2_lb _ 1 hmax
      push_cast at this
      linarith [show (0.01 : ℚ) = 1 / 100 by norm_num]
    · exact round2_cents _
  · intro fd h1 h2
    rw [generate_fraud_amount]
    constructor
    · have hlo := archetypeRange_lo (pick fraud_patterns fd.patternIdx)
      have hq : ((1 : ℤ) : ℚ) / 100 ≤ fd.amountDraw := by
        push_cast
        linarith [show (0.01 : ℚ) = 1 / 100 by norm_num]
      have := round2_lb fd.amountDraw 1 hq
      push_cast at this
      linarith [show (0.01 : ℚ) = 1 / 100 by norm_num]
    · exact round2_cents _

/-- C7 witness: the invariant at concrete draws (normal path, and the
`high_amount_unknown_merchant` archetype with draw 2000 ∈ [1000,15000]). -/
theorem C7_amount_invariant_witness :
    ((0.01 : ℚ) ≤ (generate_normal_transaction normalProfile exNd).amount
      ∧ ∃ m : ℤ,
          (generate_normal_transaction normalProfile exNd).amount = (m : ℚ) / 100)
    ∧ ((0.01 : ℚ) ≤ (generate_fraud_transaction exFd).amount
      ∧ ∃ m : ℤ, (generate_fraud_transaction exFd).amount = (m : ℚ) / 100) :=
  ⟨C7_amount_invariant.1 normalProfile exNd,
   C7_amount_invariant.2 exFd
     (by norm_num [archetypeRange, pick, fraud_patterns, exFd])
     (by norm_num [archetypeRange, pick, fraud_patterns, exFd])⟩

/-- C8: every fraud-archetype transaction is tagged
`user_profile = "fraudulent"`; the archetype amount ranges are the
literal ones of the source, and for a `random.uniform` draw within the
selected archetype's range, the produced amount stays in that range. -/
theorem C8_fraud_archetype_ranges :
    (∀ fd : FraudDraws,
        (generate_fraud_transaction fd).user_profile = "fraudulent")
    ∧ archetypeRange "high_amount_unknown_merchant" = (1000, 15000)
    ∧ archetypeRange "multiple_small_amounts" = (0.01, 50)
    ∧ archetypeRange "foreign_location" = (100, 3000)
    ∧ archetypeRange "unusual_time" = (200, 5000)
    ∧ archetypeRange "prepaid_card_pattern" = (50, 1000)
    ∧ (∀ fd : FraudDraws,
        (archetypeRange (pick fraud_patterns fd.patternIdx)).1 ≤ fd.amountDraw →
        fd.amountDraw ≤ (archetypeRange (pick fraud_patterns fd.patternIdx)).2 →
        (archetypeRange (pick fraud_patterns fd.patternIdx)).1
            ≤ (generate_fraud_transaction fd).amount
        ∧ (generate_fraud_transaction fd).amount
            ≤ (archetypeRange (pick fraud_patterns fd.patternIdx)).2) := by
  refine ⟨generate_fraud_profile_tag, by simp [archetypeRange],
    by simp [archetypeRange], by simp [archetypeRange],
    by simp [archetypeRange], by simp [archetypeRange], ?_⟩
  intro fd h1 h2
  obtain ⟨mlo, mhi, hr⟩ := archetypeRange_cents (pick fraud_patterns fd.patternIdx)
  rw [generate_fraud_amount]
  rw [hr] at h1 h2 ⊢
  simp only at h1 h2 ⊢
  exact ⟨round2_lb _ _ h1, round2_ub _ _ h2⟩

/-- C8 witness: the range preservation at the concrete archetype-0 draw
2000 ∈ [1000, 15000]. -/
theorem C8_fraud_archetype_witness :
    (generate_fraud_transaction exFd).user_profile = "fraudulent"
    ∧ ((archetypeRange (pick fraud_patterns exFd.patternIdx)).1
          ≤ (generate_fraud_transaction exFd).amount
      ∧ (generate_fraud_transaction exFd).amount
          ≤ (archetypeRange (pick fraud_patterns exFd.patternIdx)).2) :=
  ⟨C8_fraud_archetype_ranges.1 exFd,
   C8_fraud_archetype_ranges.2.2.2.2.2.2 exFd
     (by norm_num [archetypeRange, pick, fraud_patterns, exFd])
     (by norm_num [archetypeRange, pick, fraud_patterns, exFd])⟩
